import Mathlib

/-!
Verification of the gas-monitor real-time alarm/telemetry fan-out and
client-side reconciliation subsystem.

The definitions below are a shallow embedding of the JavaScript source:

* the Redis-fed Socket.IO fan-out router of the backend entry file
  (telemetry and alarms channel handlers);
* the client socketService (persistent alarm cache, listener
  registration, pending room subscriptions);
* the AlarmsTab component (bulk load and handleNewAlarm merge);
* the AlarmNotification component (processAlarm);
* the backend alarm controller normalizer (normalizeAlarmObject);
* the client alarmService HTTP wrappers.

Modelling conventions:

* A JavaScript string-or-undefined value is Option String; none is
  undefined/absent. JavaScript truthiness of such a value: none and the
  empty string are falsy.
* ISO-8601 timestamp strings are modelled as Nat epoch milliseconds:
  the ISO encoding is injective and monotone, string equality becomes
  Nat equality and date order becomes Nat order. A present timestamp
  string is never empty, so Option Nat truthiness is isSome.
* Impure inputs (Date.now, Math.random id synthesis, the socket list)
  are passed as explicit parameters.
* Callbacks are identified by Nat tokens; invoking a callback is
  counted rather than executed.
-/

namespace GasMonitor

/-- Truthiness of a JavaScript string-or-undefined value. -/
def truthyS : Option String → Bool
  | some s => s != ""
  | none => false

/-- JavaScript a || b on string-or-undefined values. -/
def jsOr (a b : Option String) : Option String :=
  if truthyS a then a else b

/-- First truthy value of a JavaScript || chain, none when all are falsy. -/
def firstTruthy : List (Option String) → Option String
  | [] => none
  | a :: l => if truthyS a then a else firstTruthy l

/-- First present timestamp of a || chain (present ISO strings are truthy). -/
def firstT : List (Option Nat) → Option Nat
  | [] => none
  | a :: l => match a with
    | some t => some t
    | none => firstT l

/-- JavaScript String.prototype.toLowerCase, character by character. -/
def lowerS (s : String) : String := String.mk (s.data.map Char.toLower)

/-- List-level prefix test on characters. -/
def isPrefixL : List Char → List Char → Bool
  | [], _ => true
  | _ :: _, [] => false
  | a :: as, b :: bs => a == b && isPrefixL as bs

/-- List-level contiguous substring test (needle, then haystack). -/
def containsSubL (needle : List Char) : List Char → Bool
  | [] => isPrefixL needle []
  | b :: bs => isPrefixL needle (b :: bs) || containsSubL needle bs

/-- JavaScript String.prototype.includes: does hay contain needle. -/
def containsSub (hay needle : String) : Bool :=
  containsSubL needle.data hay.data

/-! ### Fan-out router (backend entry file, Redis channel handlers) -/

/-- Socket.IO room, named device:<id> or plant:<id> in the source. -/
inductive Room where
  | device (id : String)
  | plant (pid : Nat)
deriving DecidableEq

/-- Delivery channel of one emission: a global io.emit, a room emit, or a
direct per-socket emit. -/
inductive Chan where
  | global
  | room (r : Room)
  | sock (sid : Nat)
deriving DecidableEq

/-- One push performed by a routing pass: the channel and the event name. -/
abbrev Emission := Chan × String

/-- Raw telemetry message fields consulted by the telemetry channel handler. -/
structure TelemetryMsg where
  deviceId : Option String := none
  device : Option String := none
  deviceName : Option String := none
  DeviceName : Option String := none
  plantName : Option String := none
deriving DecidableEq

/-- Resolved deviceId: telemetryData.deviceId || telemetryData.device. -/
def tDeviceId (m : TelemetryMsg) : Option String :=
  jsOr m.deviceId m.device

/-- Resolved deviceName: deviceName || DeviceName || deviceId. -/
def tDeviceName (m : TelemetryMsg) : Option String :=
  jsOr (jsOr m.deviceName m.DeviceName) (tDeviceId m)

/-- The isEsp32_04 test of the telemetry handler. -/
def isEsp32_04 (m : TelemetryMsg) : Bool :=
  (tDeviceId m == some "esp32_04")
  || (match tDeviceName m with
      | some n => containsSub (lowerS n) "esp32_04"
      | none => false)
  || (match m.device with
      | some d => lowerS d == "esp32_04"
      | none => false)
  || (match m.deviceId with
      | some d => lowerS d == "esp32_04"
      | none => false)

/-- JavaScript template interpolation of a string-or-undefined value. -/
def optStr : Option String → String
  | some s => s
  | none => "undefined"

/-- Plant name resolution of the telemetry handler:
telemetryData.plantName || (deviceName.includes(esp32_04) ? Plant D : Plant C).
Returns none exactly when the source code would throw (deviceName
undefined while plantName is falsy); that TypeError is caught by the
handler after the earlier emissions already happened. -/
def plantNameOf (m : TelemetryMsg) : Option String :=
  if truthyS m.plantName then m.plantName
  else match tDeviceName m with
    | some n => some (if containsSub n "esp32_04" then "Plant D" else "Plant C")
    | none => none

/-- Plant id mapping: Plant D is 2, anything else 1. -/
def plantIdOfName (p : String) : Nat :=
  if p == "Plant D" then 2 else 1

/-- Emissions performed by one invocation of the telemetry channel handler.
socks is the list of currently connected socket ids (io.sockets.sockets). -/
def telemetryEmissions (m : TelemetryMsg) (socks : List Nat) : List Emission :=
  let base : List Emission :=
    if isEsp32_04 m then
      [(Chan.global, "telemetry"),
       (Chan.global, "telemetry_esp32_04"),
       (Chan.room (Room.device "esp32_04"), "telemetry-esp32_04"),
       (Chan.global, "broadcast")]
      ++ socks.map (fun s => (Chan.sock s, "telemetry-esp32_04"))
    else
      [(Chan.room (Room.device (optStr (tDeviceId m))), "telemetry")]
  match plantNameOf m with
  | some p => base ++ [(Chan.room (Room.plant (plantIdOfName p)), "telemetry")]
  | none => base

/-- Raw alarm message fields consulted by the alarms channel handler. -/
structure AlarmMsg where
  deviceId : Option String := none
  DeviceId : Option String := none
  plantId : Option Nat := none
  plantName : Option String := none
  PlantName : Option String := none
deriving DecidableEq

/-- Resolved deviceId: alarmData.deviceId || alarmData.DeviceId. -/
def aDeviceId (m : AlarmMsg) : Option String :=
  jsOr m.deviceId m.DeviceId

/-- Plant id of the alarms handler:
alarmData.plantId || (alarmData.plantName === Plant D ? 2 : 1).
A numeric plantId of 0 is falsy in JavaScript. -/
def aPlantId (m : AlarmMsg) : Nat :=
  let fallback := if m.plantName == some "Plant D" then 2 else 1
  match m.plantId with
  | some n => if n == 0 then fallback else n
  | none => fallback

/-- Emissions performed by one invocation of the alarms channel handler,
including the setTimeout-delayed alarm_notification broadcast. The delayed
broadcast is skipped exactly when building its payload would throw
(deviceId undefined while both plant name fields are falsy). -/
def alarmEmissions (m : AlarmMsg) : List Emission :=
  [(Chan.global, "alarm")]
  ++ (if truthyS (aDeviceId m) then
        [(Chan.room (Room.device (optStr (aDeviceId m))), "alarm")]
      else [])
  ++ [(Chan.room (Room.plant (aPlantId m)), "alarm")]
  ++ (if truthyS m.plantName || truthyS m.PlantName || (aDeviceId m).isSome then
        [(Chan.global, "alarm_notification")]
      else [])

/-! ### socketService persistent alarm cache (addAlarmToCache, markAlarmAsRead) -/

/-- Raw alarm push payload fields consulted by addAlarmToCache. -/
structure PushAlarm where
  id : Option String := none
  _id : Option String := none
  AlarmId : Option String := none
  alarmId : Option String := none
  alarmCode : Option String := none
  AlarmCode : Option String := none
  description : Option String := none
  alarmDescription : Option String := none
  AlarmDescription : Option String := none
  timestamp : Option Nat := none
  createdTimestamp : Option Nat := none
  CreatedTimestamp : Option Nat := none
  deviceId : Option String := none
  DeviceId : Option String := none
  deviceName : Option String := none
  DeviceName : Option String := none
  plantName : Option String := none
  PlantName : Option String := none
deriving DecidableEq

/-- Formatted cache record as built by addAlarmToCache. -/
structure CacheAlarm where
  _id : String
  AlarmId : String
  AlarmCode : String
  AlarmDescription : String
  CreatedTimestamp : Nat
  DeviceId : String
  DeviceName : String
  PlantName : String
  IsActive : Bool
  IsRead : Bool
deriving DecidableEq

/-- The candidate id of addAlarmToCache:
newAlarm.id || newAlarm._id || newAlarm.AlarmId || empty string. -/
def resolvedAlarmId (e : PushAlarm) : String :=
  (firstTruthy [e.id, e._id, e.AlarmId]).getD ""

/-- Duplicate test of addAlarmToCache against one cached record:
a._id === alarmId, or a.AlarmId === alarmId, or
(newAlarm.timestamp && a.CreatedTimestamp === newAlarm.timestamp). -/
def cacheMatches (e : PushAlarm) (aid : String) (a : CacheAlarm) : Bool :=
  a._id == aid || a.AlarmId == aid
  || (match e.timestamp with
      | some t => a.CreatedTimestamp == t
      | none => false)

/-- The formattedAlarm record of addAlarmToCache. now is Date.now as an
ISO value, fresh is the random suffix of the synthesized id. -/
def formatPush (e : PushAlarm) (aid : String) (now : Nat) (fresh : String) : CacheAlarm :=
  { _id := if aid != "" then aid else "alarm-" ++ fresh
    AlarmId := (firstTruthy [e.id, e.alarmId, e.AlarmId]).getD ""
    AlarmCode := (firstTruthy [e.alarmCode, e.AlarmCode]).getD ""
    AlarmDescription :=
      (firstTruthy [e.description, e.alarmDescription, e.AlarmDescription]).getD ""
    CreatedTimestamp := (firstT [e.timestamp, e.createdTimestamp, e.CreatedTimestamp]).getD now
    DeviceId := (firstTruthy [e.deviceId, e.DeviceId]).getD ""
    DeviceName := (firstTruthy [e.deviceName, e.DeviceName]).getD ""
    PlantName := (firstTruthy [e.plantName, e.PlantName]).getD ""
    IsActive := true
    IsRead := false }

/-- socketService.addAlarmToCache: skip when a cached record matches the
duplicate test, otherwise prepend the formatted record. -/
def addAlarmToCache (cache : List CacheAlarm) (e : PushAlarm) (now : Nat) (fresh : String) :
    List CacheAlarm :=
  let aid := resolvedAlarmId e
  if cache.any (cacheMatches e aid) then cache
  else formatPush e aid now fresh :: cache

/-- Repeated delivery of the same event, one addAlarmToCache call per
(now, fresh) parameter pair. -/
def mergeRepeat (e : PushAlarm) : List (Nat × String) → List CacheAlarm → List CacheAlarm
  | [], cache => cache
  | p :: ps, cache => mergeRepeat e ps (addAlarmToCache cache e p.1 p.2)

/-- socketService.markAlarmAsRead: falsy id is a no-op, otherwise map over
the cache setting IsRead on the records whose _id matches. -/
def markAlarmAsRead (cache : List CacheAlarm) (alarmId : String) : List CacheAlarm :=
  if alarmId == "" then cache
  else cache.map (fun a => if a._id == alarmId then { a with IsRead := true } else a)

/-- Descending CreatedTimestamp check on the persistent cache. -/
def sortedDescBoolCache : List CacheAlarm → Bool
  | [] => true
  | [_] => true
  | a :: b :: l => (b.CreatedTimestamp ≤ a.CreatedTimestamp) && sortedDescBoolCache (b :: l)

/-! ### AlarmNotification component (processAlarm) -/

/-- Raw alarm fields consulted by processAlarm. -/
structure NotifRaw where
  _id : Option String := none
  id : Option String := none
  AlarmId : Option String := none
  alarmId : Option String := none
  alarmCode : Option String := none
  AlarmCode : Option String := none
  code : Option String := none
  description : Option String := none
  AlarmDescription : Option String := none
  alarmDescription : Option String := none
  message : Option String := none
  deviceId : Option String := none
  DeviceId : Option String := none
  device : Option String := none
  deviceName : Option String := none
  DeviceName : Option String := none
  plantName : Option String := none
  PlantName : Option String := none
  plant : Option String := none
  alarmValue : Option String := none
  AlarmValue : Option String := none
  value : Option String := none
  timestamp : Option Nat := none
  createdTimestamp : Option Nat := none
  CreatedTimestamp : Option Nat := none
deriving DecidableEq

/-- Record kept by the AlarmNotification component. -/
structure NotifAlarm where
  _id : String
  AlarmId : String
  AlarmCode : String
  AlarmDescription : String
  CreatedTimestamp : Nat
  DeviceId : String
  DeviceName : String
  PlantName : String
  AlarmValue : String
  IsActive : Bool
  IsRead : Bool
  Source : String
deriving DecidableEq

/-- Alarm code extraction of processAlarm:
alarmCode || AlarmCode || (code ? code : empty) || ALARM. -/
def notifCode (e : NotifRaw) : String :=
  (firstTruthy [e.alarmCode, e.AlarmCode, e.code]).getD "ALARM"

/-- Device name extraction of processAlarm:
deviceName || DeviceName || (device ? device : empty) || Unknown Device. -/
def notifDevice (e : NotifRaw) : String :=
  (firstTruthy [e.deviceName, e.DeviceName, e.device]).getD "Unknown Device"

/-- Timestamp extraction of processAlarm:
timestamp || createdTimestamp || CreatedTimestamp || new Date toISOString. -/
def notifTs (e : NotifRaw) (now : Nat) : Nat :=
  (firstT [e.timestamp, e.createdTimestamp, e.CreatedTimestamp]).getD now

/-- Duplicate test of processAlarm: same AlarmCode, same DeviceName and
existing timestamp within 5000 ms of the new timestamp. -/
def notifDuplicate (cur : List NotifAlarm) (e : NotifRaw) (now : Nat) : Bool :=
  cur.any (fun a =>
    a.AlarmCode == notifCode e && a.DeviceName == notifDevice e
      && ((a.CreatedTimestamp : Int) - (notifTs e now : Int)).natAbs < 5000)

/-- Formatted record of processAlarm; fresh is the random part of the
synthesized uniqueId. -/
def notifFormat (e : NotifRaw) (now : Nat) (fresh : String) : NotifAlarm :=
  { _id := (firstTruthy [e._id, e.id]).getD ("alarm-" ++ fresh)
    AlarmId := (firstTruthy [e.AlarmId, e.alarmId, e.id]).getD ("alarm-" ++ fresh)
    AlarmCode := notifCode e
    AlarmDescription :=
      (firstTruthy [e.description, e.AlarmDescription, e.alarmDescription, e.message]).getD
        "New alarm notification"
    CreatedTimestamp := notifTs e now
    DeviceId := (firstTruthy [e.deviceId, e.DeviceId, e.device]).getD ""
    DeviceName := notifDevice e
    PlantName := (firstTruthy [e.plantName, e.PlantName, e.plant]).getD ""
    AlarmValue := (firstTruthy [e.alarmValue, e.AlarmValue, e.value]).getD ""
    IsActive := true
    IsRead := false
    Source := "websocket" }

/-- processAlarm: drop window duplicates, otherwise prepend and keep at
most ten records (new record plus slice of the first nine). -/
def processAlarm (cur : List NotifAlarm) (e : NotifRaw) (now : Nat) (fresh : String) :
    List NotifAlarm :=
  if notifDuplicate cur e now then cur
  else notifFormat e now fresh :: cur.take 9

/-! ### AlarmsTab component (bulk load and handleNewAlarm) -/

/-- Raw alarm fields consulted by the AlarmsTab formatting paths. -/
structure RawTabAlarm where
  _id : Option String := none
  id : Option String := none
  AlarmId : Option String := none
  alarmId : Option String := none
  AlarmCode : Option String := none
  alarmCode : Option String := none
  code : Option String := none
  AlarmDescription : Option String := none
  alarmDescription : Option String := none
  description : Option String := none
  message : Option String := none
  CreatedTimestamp : Option Nat := none
  createdTimestamp : Option Nat := none
  timestamp : Option Nat := none
  DeviceId : Option String := none
  deviceId : Option String := none
  DeviceName : Option String := none
  deviceName : Option String := none
  PlantName : Option String := none
  plantName : Option String := none
  IsActive : Option Bool := none
  isActive : Option Bool := none
  IsRead : Option Bool := none
  isRead : Option Bool := none
deriving DecidableEq

/-- Record of the AlarmsTab list; Source is the empty string for records
from the bulk load and websocket for merged push events. -/
structure TabAlarm where
  _id : String
  AlarmId : String
  AlarmCode : String
  AlarmDescription : String
  CreatedTimestamp : Nat
  DeviceId : String
  DeviceName : String
  PlantName : String
  IsActive : Bool
  IsRead : Bool
  Source : String
deriving DecidableEq

/-- Descending timestamp relation used by both AlarmsTab sort calls. -/
def tsGE (a b : TabAlarm) : Prop :=
  b.CreatedTimestamp ≤ a.CreatedTimestamp

instance : DecidableRel tsGE := fun a b =>
  inferInstanceAs (Decidable (b.CreatedTimestamp ≤ a.CreatedTimestamp))

instance : IsTotal TabAlarm tsGE :=
  ⟨fun a b => Nat.le_total b.CreatedTimestamp a.CreatedTimestamp⟩

instance : IsTrans TabAlarm tsGE :=
  ⟨fun _ _ _ h1 h2 => Nat.le_trans h2 h1⟩

/-- The comparator-based sort of the AlarmsTab code, newest first. -/
def sortDescTab (l : List TabAlarm) : List TabAlarm :=
  List.insertionSort tsGE l

/-- Sortedness by descending CreatedTimestamp. -/
def sortedByTsDesc (l : List TabAlarm) : Prop :=
  List.Sorted tsGE l

/-- The typeof-based boolean resolution of the formatting paths. -/
def definedOr (a b : Option Bool) (dflt : Bool) : Bool :=
  match a with
  | some v => v
  | none => match b with
    | some v => v
    | none => dflt

/-- Record formatting of the initial bulk load in loadAlarmsData. -/
def formatApi (a : RawTabAlarm) (now : Nat) (fresh : String) : TabAlarm :=
  { _id := (firstTruthy [a._id]).getD ("alarm-" ++ fresh)
    AlarmId := (firstTruthy [a.AlarmId, a.alarmId, a.id]).getD ""
    AlarmCode := (firstTruthy [a.AlarmCode, a.alarmCode]).getD ""
    AlarmDescription :=
      (firstTruthy [a.AlarmDescription, a.alarmDescription, a.description]).getD ""
    CreatedTimestamp := (firstT [a.CreatedTimestamp, a.createdTimestamp, a.timestamp]).getD now
    DeviceId := (firstTruthy [a.DeviceId, a.deviceId]).getD ""
    DeviceName := (firstTruthy [a.DeviceName, a.deviceName]).getD "Unknown Device"
    PlantName := (firstTruthy [a.PlantName, a.plantName]).getD ""
    IsActive := definedOr a.IsActive a.isActive true
    IsRead := definedOr a.IsRead a.isRead false
    Source := "" }

/-- Bulk load of AlarmsTab: format every fetched record, then sort by
descending timestamp; each record gets its own (now, fresh) pair. -/
def bulkLoadTab (data : List (RawTabAlarm × Nat × String)) : List TabAlarm :=
  sortDescTab (data.map (fun x => formatApi x.1 x.2.1 x.2.2))

/-- Duplicate test of handleNewAlarm against one record of the list. -/
def tabMatches (e : RawTabAlarm) (aid : String) (now : Nat) (a : TabAlarm) : Bool :=
  a._id == aid || a.AlarmId == aid
  || (match e.timestamp with
      | some t => a.CreatedTimestamp == t
      | none => false)
  || (truthyS e.AlarmCode && a.AlarmCode == (e.AlarmCode.getD "")
      && ((a.CreatedTimestamp : Int) > (now : Int) - 5000))

/-- Formatted record of handleNewAlarm. -/
def tabFormat (e : RawTabAlarm) (aid : String) (now : Nat) : TabAlarm :=
  { _id := aid
    AlarmId := (firstTruthy [e.id, e.alarmId, e.AlarmId]).getD aid
    AlarmCode := (firstTruthy [e.alarmCode, e.AlarmCode, e.code]).getD ""
    AlarmDescription :=
      (firstTruthy [e.description, e.alarmDescription, e.AlarmDescription, e.message]).getD
        "Unknown alarm"
    CreatedTimestamp := (firstT [e.timestamp, e.createdTimestamp, e.CreatedTimestamp]).getD now
    DeviceId := (firstTruthy [e.deviceId, e.DeviceId]).getD ""
    DeviceName := (firstTruthy [e.deviceName, e.DeviceName]).getD "Unknown Device"
    PlantName := (firstTruthy [e.plantName, e.PlantName]).getD ""
    IsActive := true
    IsRead := false
    Source := "websocket" }

/-- AlarmsTab handleNewAlarm: plant and device filters, duplicate test,
then prepend the formatted record and re-sort the whole list. -/
def handleNewAlarm (selPlant selDevice : Option String) (cur : List TabAlarm)
    (e : RawTabAlarm) (now : Nat) (fresh : String) : List TabAlarm :=
  let alarmPlantName := (firstTruthy [e.PlantName, e.plantName]).getD ""
  let alarmDeviceName := (firstTruthy [e.DeviceName, e.deviceName]).getD ""
  if truthyS selPlant && (lowerS alarmPlantName != lowerS (selPlant.getD "")) then cur
  else if truthyS selDevice && (lowerS alarmDeviceName != lowerS (selDevice.getD "")) then cur
  else
    let aid := (firstTruthy [e._id, e.id, e.alarmId, e.AlarmId]).getD ("alarm-" ++ fresh)
    if cur.any (tabMatches e aid now) then cur
    else sortDescTab (tabFormat e aid now :: cur)

/-- One operation on the AlarmsTab list. -/
inductive TabOp where
  | bulk (data : List (RawTabAlarm × Nat × String))
  | merge (e : RawTabAlarm) (now : Nat) (fresh : String)

/-- Apply one AlarmsTab operation. -/
def applyTabOp (selPlant selDevice : Option String) (cur : List TabAlarm) :
    TabOp → List TabAlarm
  | .bulk data => bulkLoadTab data
  | .merge e now fresh => handleNewAlarm selPlant selDevice cur e now fresh

/-- Apply a sequence of AlarmsTab operations in order. -/
def applyTabOps (selPlant selDevice : Option String) :
    List TabOp → List TabAlarm → List TabAlarm
  | [], cur => cur
  | op :: ops, cur => applyTabOps selPlant selDevice ops (applyTabOp selPlant selDevice cur op)

/-! ### socketService listener registration (onTelemetry, onAlarm,
onAlarmNotification, onNotification) and disposers -/

/-- Listener bookkeeping of the socketService instance. Socket-level
handlers are the closures installed with socket.on; the Cbs lists mirror
the listeners map. Telemetry socket handlers capture their callback and
device filter; alarm and alarm notification socket handlers iterate the
corresponding Cbs list, so only their count matters; the notification
socket handler is installed at most once. -/
structure ListenerState where
  socketExists : Bool := true
  telemetrySockHandlers : List (Nat × Option String) := []
  alarmSockHandlers : Nat := 0
  alarmNotifSockHandlers : Nat := 0
  notifSockHandlerInstalled : Bool := false
  telemetryCbs : List Nat := []
  alarmCbs : List Nat := []
  alarmNotifCbs : List Nat := []
  notifCbs : List Nat := []
deriving DecidableEq

/-- Disposer returned by a registration; dummy is the empty cleanup
function returned when the socket is missing. -/
inductive Disposer where
  | dummy
  | telemetry (cb : Nat)
  | alarm (cb : Nat)
  | alarmNotif (cb : Nat)
deriving DecidableEq

/-- socketService.removeListener on one callbacks list: splice out the
first occurrence of the callback, if any. -/
def removeFirst : List Nat → Nat → List Nat
  | [], _ => []
  | a :: l, x => if a == x then l else a :: removeFirst l x

/-- socketService.onTelemetry: tear down every telemetry socket handler,
install one handler capturing the callback and device filter, and push
the callback on the listeners list. Without a socket it returns the dummy
cleanup function. -/
def onTelemetry (st : ListenerState) (cb : Nat) (device : Option String) :
    ListenerState × Option Disposer :=
  if st.socketExists then
    ({ st with
        telemetrySockHandlers := [(cb, device)]
        telemetryCbs := st.telemetryCbs ++ [cb] },
      some (Disposer.telemetry cb))
  else (st, some Disposer.dummy)

/-- socketService.onAlarm: remove every alarm socket handler, reset the
alarm listeners list to the new callback, install one socket handler that
iterates the list. Without a socket the callback is parked on a pending
list and no disposer is returned. -/
def onAlarm (st : ListenerState) (cb : Nat) : ListenerState × Option Disposer :=
  if st.socketExists then
    ({ st with alarmSockHandlers := 1, alarmCbs := [cb] }, some (Disposer.alarm cb))
  else (st, none)

/-- socketService.onAlarmNotification, same shape as onAlarm. -/
def onAlarmNotification (st : ListenerState) (cb : Nat) : ListenerState × Option Disposer :=
  if st.socketExists then
    ({ st with alarmNotifSockHandlers := 1, alarmNotifCbs := [cb] },
      some (Disposer.alarmNotif cb))
  else (st, none)

/-- socketService.onNotification: append the callback to the listeners
list and install the single socket handler if it is not active yet.
Returns no disposer (the source function returns undefined). -/
def onNotification (st : ListenerState) (cb : Nat) : ListenerState × Option Disposer :=
  ({ st with
      notifCbs := st.notifCbs ++ [cb]
      notifSockHandlerInstalled :=
        st.notifSockHandlerInstalled || st.socketExists },
    none)

/-- Apply a disposer. The telemetry disposer also calls socket.off on the
telemetry event, clearing every telemetry socket handler. -/
def dispose (st : ListenerState) : Disposer → ListenerState
  | .dummy => st
  | .telemetry cb =>
      { st with
          telemetryCbs := removeFirst st.telemetryCbs cb
          telemetrySockHandlers := [] }
  | .alarm cb => { st with alarmCbs := removeFirst st.alarmCbs cb }
  | .alarmNotif cb => { st with alarmNotifCbs := removeFirst st.alarmNotifCbs cb }

/-- Telemetry payload fields consulted by the device filter. -/
structure TelemetryPayload where
  device : Option String := none
  deviceId : Option String := none
deriving DecidableEq

/-- Device id resolution of the telemetry socket handler:
data.device || data.deviceId || unknown. -/
def payloadDeviceId (d : TelemetryPayload) : String :=
  (firstTruthy [d.device, d.deviceId]).getD "unknown"

/-- Device filter of the telemetry socket handler: no filter passes all,
otherwise exact match or substring containment in either direction. -/
def telemetryFilterMatch (device : Option String) (d : TelemetryPayload) : Bool :=
  match device with
  | none => true
  | some dev =>
      if dev == "" then true
      else
        let did := payloadDeviceId d
        did == dev || containsSub did dev || containsSub dev did

/-- Number of invocations of a given callback when one telemetry event
arrives: one per matching installed socket handler capturing it. -/
def deliverTelemetry (st : ListenerState) (d : TelemetryPayload) (cb : Nat) : Nat :=
  (st.telemetrySockHandlers.filter
    (fun h => h.1 == cb && telemetryFilterMatch h.2 d)).length

/-- Number of invocations of a given callback when one alarm event
arrives: every socket handler iterates the alarm listeners list. -/
def deliverAlarm (st : ListenerState) (cb : Nat) : Nat :=
  st.alarmSockHandlers * st.alarmCbs.count cb

/-- Number of invocations of a given callback for one alarm notification
event. -/
def deliverAlarmNotif (st : ListenerState) (cb : Nat) : Nat :=
  st.alarmNotifSockHandlers * st.alarmNotifCbs.count cb

/-- Number of invocations of a given callback for one notification event:
the single socket handler, when installed, iterates the whole list. -/
def deliverNotification (st : ListenerState) (cb : Nat) : Nat :=
  if st.notifSockHandlerInstalled then st.notifCbs.count cb else 0

/-- Register the same callback n times through onTelemetry. -/
def onTelemetryN (cb : Nat) (device : Option String) : Nat → ListenerState → ListenerState
  | 0, st => st
  | n + 1, st => (onTelemetry (onTelemetryN cb device n st) cb device).1

/-- Register the same callback n times through onAlarm. -/
def onAlarmN (cb : Nat) : Nat → ListenerState → ListenerState
  | 0, st => st
  | n + 1, st => (onAlarm (onAlarmN cb n st) cb).1

/-- Register the same callback n times through onAlarmNotification. -/
def onAlarmNotifN (cb : Nat) : Nat → ListenerState → ListenerState
  | 0, st => st
  | n + 1, st => (onAlarmNotification (onAlarmNotifN cb n st) cb).1

/-- Register the same callback n times through onNotification. -/
def onNotificationN (cb : Nat) : Nat → ListenerState → ListenerState
  | 0, st => st
  | n + 1, st => (onNotification (onNotificationN cb n st) cb).1

/-! ### socketService pending room subscriptions and reconnect replay -/

/-- Subscribe request emitted to the server. -/
inductive SubEmit where
  | device (id : String)
  | plant (id : String)
deriving DecidableEq

/-- Connection state of the subscription manager. The pending set is the
pendingSubscriptions Set in insertion order. -/
structure SubMgrState where
  socketExists : Bool := true
  connected : Bool := false
  pending : List String := []
  currentPlant : Option String := none
deriving DecidableEq

/-- Template string plant-<currentPlant>; null interpolates as null. -/
def plantKeyStr (p : Option String) : String :=
  "plant-" ++ (match p with
    | some s => s
    | none => "null")

/-- socketService.subscribeToDevice: skip falsy or already queued ids,
drop every other queued entry except the current plant key, queue the
device id, and emit only when connected. -/
def subscribeToDevice (st : SubMgrState) (deviceId : String) :
    SubMgrState × List SubEmit :=
  if deviceId == "" then (st, [])
  else if st.pending.contains deviceId then (st, [])
  else
    let kept := st.pending.filter
      (fun sub => sub == plantKeyStr st.currentPlant || sub == deviceId)
    let st' := { st with pending := kept ++ [deviceId] }
    if st.socketExists && st.connected then (st', [SubEmit.device deviceId])
    else (st', [])

/-- socketService.subscribeToPlant: skip null ids and already queued
keys, drop every other plant- entry, queue plant-<id>, and emit only when
connected. -/
def subscribeToPlant (st : SubMgrState) (plantId : Option String) :
    SubMgrState × List SubEmit :=
  match plantId with
  | none => (st, [])
  | some pid =>
      let key := "plant-" ++ pid
      if st.pending.contains key then (st, [])
      else
        let kept := st.pending.filter
          (fun sub => !(isPrefixL "plant-".data sub.data) || sub == key)
        let st' := { st with pending := kept ++ [key] }
        if st.socketExists && st.connected then (st', [SubEmit.plant pid])
        else (st', [])

/-- Decoding of one queued entry in the connect handler: entries with the
plant- prefix are replayed as plant subscriptions with the prefix
stripped, every other entry as a device subscription. -/
def replayOne (sub : String) : SubEmit :=
  if isPrefixL "plant-".data sub.data then SubEmit.plant (String.mk (sub.data.drop 6))
  else SubEmit.device sub

/-- The connect handler replay: one emission per queued entry, in
insertion order. -/
def connectReplay (pending : List String) : List SubEmit :=
  pending.map replayOne

/-! ### Backend alarm controller normalizer (normalizeAlarmObject) -/

/-- Raw alarm document fields consulted by normalizeAlarmObject.
Timestamps stay strings here because the normalizer only copies them. -/
structure RawNormAlarm where
  _id : Option String := none
  AlarmId : Option String := none
  alarmId : Option String := none
  AlarmCode : Option String := none
  alarmCode : Option String := none
  AlarmDescription : Option String := none
  alarmDescription : Option String := none
  description : Option String := none
  CreatedTimestamp : Option String := none
  createdTimestamp : Option String := none
  timestamp : Option String := none
  DeviceId : Option String := none
  deviceId : Option String := none
  DeviceName : Option String := none
  deviceName : Option String := none
  PlantName : Option String := none
  plantName : Option String := none
  IsActive : Option Bool := none
  isActive : Option Bool := none
  IsRead : Option Bool := none
  isRead : Option Bool := none
deriving DecidableEq

/-- Canonical alarm record produced by normalizeAlarmObject. -/
structure NormAlarm where
  _id : String
  AlarmId : String
  AlarmCode : String
  AlarmDescription : String
  CreatedTimestamp : String
  DeviceId : String
  DeviceName : String
  PlantName : String
  IsActive : Bool
  IsRead : Bool
deriving DecidableEq

/-- normalizeAlarmObject of the alarm controller (the extended variant
with the contextDeviceId parameter, which is the binding in effect in the
source file). now stands for new Date and fresh for the random id
suffix. -/
def normalizeAlarmObject (a : RawNormAlarm) (contextDeviceId : Option String)
    (now fresh : String) : NormAlarm :=
  { _id := (firstTruthy [a._id]).getD ("alarm-" ++ fresh)
    AlarmId := (firstTruthy [a.AlarmId, a.alarmId]).getD ""
    AlarmCode := (firstTruthy [a.AlarmCode, a.alarmCode]).getD ""
    AlarmDescription :=
      (firstTruthy [a.AlarmDescription, a.alarmDescription, a.description]).getD ""
    CreatedTimestamp :=
      (firstTruthy [a.CreatedTimestamp, a.createdTimestamp, a.timestamp]).getD now
    DeviceId := (firstTruthy [a.DeviceId, a.deviceId, contextDeviceId]).getD ""
    DeviceName := (firstTruthy [a.DeviceName, a.deviceName]).getD ""
    PlantName := (firstTruthy [a.PlantName, a.plantName]).getD ""
    IsActive := definedOr a.IsActive a.isActive true
    IsRead := definedOr a.IsRead a.isRead false }

/-- Single-alias view of a two-alias field group: some v when at most one
alias is present with value v, none when the group is presented under
both aliases at once. -/
def oneOf2 (a b : Option String) : Option (Option String) :=
  match a, b with
  | some v, none => some (some v)
  | none, some v => some (some v)
  | none, none => some none
  | some _, some _ => none

/-- Single-alias view of a three-alias field group. -/
def oneOf3 (a b c : Option String) : Option (Option String) :=
  match a, b, c with
  | some v, none, none => some (some v)
  | none, some v, none => some (some v)
  | none, none, some v => some (some v)
  | none, none, none => some none
  | _, _, _ => none

/-- Single-alias view of a two-alias boolean field group. -/
def oneOf2B (a b : Option Bool) : Option (Option Bool) :=
  match a, b with
  | some v, none => some (some v)
  | none, some v => some (some v)
  | none, none => some none
  | some _, some _ => none

/-- One two-alias field group is well formed on the left (one alias at
most) and presents the same value on both sides. -/
def groupOk2 (a b a2 b2 : Option String) : Bool :=
  (oneOf2 a b).isSome && oneOf2 a b == oneOf2 a2 b2

/-- One three-alias field group, same reading. -/
def groupOk3 (a b c a2 b2 c2 : Option String) : Bool :=
  (oneOf3 a b c).isSome && oneOf3 a b c == oneOf3 a2 b2 c2

/-- One two-alias boolean field group, same reading. -/
def groupOk2B (a b a2 b2 : Option Bool) : Bool :=
  (oneOf2B a b).isSome && oneOf2B a b == oneOf2B a2 b2

/-- Two raw alarm documents differ only in field-name casing/aliasing:
each canonical field group is presented under at most one alias on each
side and carries the same value on both sides; the _id field has no
alias. -/
def aliasVariant (x y : RawNormAlarm) : Bool :=
  x._id == y._id
  && groupOk2 x.AlarmId x.alarmId y.AlarmId y.alarmId
  && groupOk2 x.AlarmCode x.alarmCode y.AlarmCode y.alarmCode
  && groupOk3 x.AlarmDescription x.alarmDescription x.description
      y.AlarmDescription y.alarmDescription y.description
  && groupOk3 x.CreatedTimestamp x.createdTimestamp x.timestamp
      y.CreatedTimestamp y.createdTimestamp y.timestamp
  && groupOk2 x.DeviceId x.deviceId y.DeviceId y.deviceId
  && groupOk2 x.DeviceName x.deviceName y.DeviceName y.deviceName
  && groupOk2 x.PlantName x.plantName y.PlantName y.plantName
  && groupOk2B x.IsActive x.isActive y.IsActive y.isActive
  && groupOk2B x.IsRead x.isRead y.IsRead y.isRead

/-! ### Client alarmService HTTP wrappers -/

/-- Outcome of one HTTP call: a response or backing-service failure. -/
inductive ApiResult (α : Type) where
  | ok (value : α)
  | unavailable
deriving DecidableEq

/-- alarmService.getAllAlarms: the catch branch returns an empty array
instead of rethrowing. -/
def getAllAlarmsClient : ApiResult (List NormAlarm) → List NormAlarm
  | .ok l => l
  | .unavailable => []

/-- alarmService.getAlarmsByDevice: falsy device id short-circuits to an
empty array; the catch branch also returns an empty array. -/
def getAlarmsByDeviceClient (deviceId : String) (r : ApiResult (List NormAlarm)) :
    List NormAlarm :=
  if deviceId == "" then []
  else match r with
    | .ok l => l
    | .unavailable => []

/-- alarmService.markAlarmAsRead: falsy id returns false, a response is a
success exactly when its status is in the 2xx range, and the catch branch
returns false. -/
def markAlarmAsReadClient (alarmId : String) (r : ApiResult Nat) : Bool :=
  if alarmId == "" then false
  else match r with
    | .ok status => 200 ≤ status && status < 300
    | .unavailable => false

/-- alarmService.markAllAlarmsAsRead, same success test and catch. -/
def markAllAlarmsAsReadClient : ApiResult Nat → Bool
  | .ok status => 200 ≤ status && status < 300
  | .unavailable => false

/-! ## Claim theorems -/

/-- Claim C9, counterexample: when the backing service is unavailable,
getAllAlarms does not surface any typed failure to its caller; it returns
the plain empty array, the very value a successful fetch of zero alarms
returns, so the two outcomes are indistinguishable for the caller. -/
theorem C9_counterexample :
    getAllAlarmsClient ApiResult.unavailable = getAllAlarmsClient (ApiResult.ok [])
    ∧ getAllAlarmsClient ApiResult.unavailable = ([] : List NormAlarm) :=
  ⟨rfl, rfl⟩

/-- Claim C9, amended: when the backing service is unavailable, the
bulk-load operations swallow the failure and return an empty array, and
the read-mark operations return false; none of them rethrows, so the UI
does not crash and can fall back to an empty or cached result. -/
theorem C9_service_unavailable_fallback :
    getAllAlarmsClient ApiResult.unavailable = []
    ∧ (∀ d : String, getAlarmsByDeviceClient d ApiResult.unavailable = [])
    ∧ (∀ i : String, markAlarmAsReadClient i ApiResult.unavailable = false)
    ∧ markAllAlarmsAsReadClient ApiResult.unavailable = false := by
  refine ⟨rfl, ?_, ?_, rfl⟩
  · intro d
    simp [getAlarmsByDeviceClient]
  · intro i
    simp [markAlarmAsReadClient]

/-- Claim C10: markAlarmAsRead on the client cache maps every record
whose _id equals the given id to the same record with IsRead set, leaves
every record whose _id differs entirely unchanged, and leaves the cache
unchanged when the id is falsy or no record matches. -/
theorem C10_markAlarmAsRead_frame (cache : List CacheAlarm) (aid : String) :
    (markAlarmAsRead cache aid
      = cache.map (fun a => if aid ≠ "" ∧ a._id = aid then { a with IsRead := true } else a))
    ∧ (∀ a ∈ cache, a._id = aid → aid ≠ "" →
        ∃ b ∈ markAlarmAsRead cache aid,
          b.IsRead = true ∧ b._id = a._id ∧ b.AlarmId = a.AlarmId
          ∧ b.AlarmCode = a.AlarmCode ∧ b.AlarmDescription = a.AlarmDescription
          ∧ b.CreatedTimestamp = a.CreatedTimestamp ∧ b.DeviceId = a.DeviceId
          ∧ b.DeviceName = a.DeviceName ∧ b.PlantName = a.PlantName
          ∧ b.IsActive = a.IsActive)
    ∧ (∀ a ∈ cache, a._id ≠ aid → a ∈ markAlarmAsRead cache aid)
    ∧ ((aid = "" ∨ ∀ a ∈ cache, a._id ≠ aid) → markAlarmAsRead cache aid = cache) := by
  have hmap : markAlarmAsRead cache aid
      = cache.map (fun a => if aid ≠ "" ∧ a._id = aid then { a with IsRead := true } else a) := by
    unfold markAlarmAsRead
    by_cases h : aid = ""
    · simp [h]
    · simp only [h, beq_iff_eq, if_neg h]
      apply List.map_congr_left
      intro a _
      by_cases hid : a._id = aid
      · simp [hid, h]
      · simp [hid]
  refine ⟨hmap, ?_, ?_, ?_⟩
  · intro a ha hid hne
    refine ⟨{ a with IsRead := true }, ?_, rfl, rfl, rfl, rfl, rfl, rfl, rfl, rfl, rfl, rfl⟩
    rw [hmap]
    have := List.mem_map_of_mem
      (fun a => if aid ≠ "" ∧ a._id = aid then { a with IsRead := true } else a) ha
    simpa [hne, hid] using this
  · intro a ha hid
    rw [hmap]
    have := List.mem_map_of_mem
      (fun a => if aid ≠ "" ∧ a._id = aid then { a with IsRead := true } else a) ha
    simpa [hid] using this
  · intro h
    rw [hmap]
    rcases h with h | h
    · simp [h]
    · have : ∀ a ∈ cache,
          (if aid ≠ "" ∧ a._id = aid then { a with IsRead := true } else a) = a := by
        intro a ha
        simp [h a ha]
      rw [List.map_congr_left this, List.map_id']

/-- Claim C10, witness: a concrete two-record cache where the first
record matches, evaluated through the theorem. -/
theorem C10_witness :
    markAlarmAsRead
        [{ _id := "a1", AlarmId := "a1", AlarmCode := "IO_ALR_108", AlarmDescription := "d",
           CreatedTimestamp := 10, DeviceId := "esp32_04", DeviceName := "esp32_04",
           PlantName := "Plant D", IsActive := true, IsRead := false },
         { _id := "a2", AlarmId := "a2", AlarmCode := "IO_ALR_106", AlarmDescription := "d2",
           CreatedTimestamp := 5, DeviceId := "esp32_02", DeviceName := "esp32_02",
           PlantName := "Plant C", IsActive := true, IsRead := false }] "a1"
      = [{ _id := "a1", AlarmId := "a1", AlarmCode := "IO_ALR_108", AlarmDescription := "d",
           CreatedTimestamp := 10, DeviceId := "esp32_04", DeviceName := "esp32_04",
           PlantName := "Plant D", IsActive := true, IsRead := true },
         { _id := "a2", AlarmId := "a2", AlarmCode := "IO_ALR_106", AlarmDescription := "d2",
           CreatedTimestamp := 5, DeviceId := "esp32_02", DeviceName := "esp32_02",
           PlantName := "Plant C", IsActive := true, IsRead := false }]
    ∧ markAlarmAsRead
        [{ _id := "a1", AlarmId := "a1", AlarmCode := "IO_ALR_108", AlarmDescription := "d",
           CreatedTimestamp := 10, DeviceId := "esp32_04", DeviceName := "esp32_04",
           PlantName := "Plant D", IsActive := true, IsRead := false }] "zzz"
      = [{ _id := "a1", AlarmId := "a1", AlarmCode := "IO_ALR_108", AlarmDescription := "d",
           CreatedTimestamp := 10, DeviceId := "esp32_04", DeviceName := "esp32_04",
           PlantName := "Plant D", IsActive := true, IsRead := false }] := by
  constructor
  · rw [(C10_markAlarmAsRead_frame _ "a1").1]
    decide
  · exact (C10_markAlarmAsRead_frame _ "zzz").2.2.2 (Or.inr (by decide))

/-- Helper: when some cached record matches, addAlarmToCache is a no-op. -/
lemma addAlarmToCache_skip {cache : List CacheAlarm} {e : PushAlarm} {now : Nat}
    {fresh : String} (h : cache.any (cacheMatches e (resolvedAlarmId e)) = true) :
    addAlarmToCache cache e now fresh = cache := by
  unfold addAlarmToCache
  simp [h]

/-- Helper: repeated delivery on a cache that already matches stays put. -/
lemma mergeRepeat_skip {e : PushAlarm} (ps : List (Nat × String)) {cache : List CacheAlarm}
    (h : cache.any (cacheMatches e (resolvedAlarmId e)) = true) :
    mergeRepeat e ps cache = cache := by
  induction ps with
  | nil => rfl
  | cons p ps ih =>
    unfold mergeRepeat
    rw [addAlarmToCache_skip h, ih]

/-- Claim C1, counterexample: one logical event carrying its identity in
the lowercase alarmId field, the same alarm code and device name, and
timestamps 2000 ms apart (well inside the 5-second dedup window), is
delivered twice to addAlarmToCache; the cache ends with two records for
it, because the cache merge never compares the alarmId field, never
compares alarm code or device name, and only tests exact timestamp
equality. -/
theorem C1_counterexample :
    (mergeRepeat
        { alarmId := some "A1", alarmCode := some "IO_ALR_108",
          deviceName := some "esp32_04", timestamp := some 3000 }
        [(200, "r2")]
        (addAlarmToCache []
          { alarmId := some "A1", alarmCode := some "IO_ALR_108",
            deviceName := some "esp32_04", timestamp := some 1000 }
          100 "r1")).length = 2
    ∧ (mergeRepeat
        { alarmId := some "A1", alarmCode := some "IO_ALR_108",
          deviceName := some "esp32_04", timestamp := some 3000 }
        [(200, "r2")]
        (addAlarmToCache []
          { alarmId := some "A1", alarmCode := some "IO_ALR_108",
            deviceName := some "esp32_04", timestamp := some 1000 }
          100 "r1")).countP
        (fun a => a.AlarmCode == "IO_ALR_108" && a.DeviceName == "esp32_04") = 2 := by
  decide

/-- Claim C1, amended: addAlarmToCache deduplicates by candidate id only
when the event carries a truthy id in its id, _id or AlarmId field: if no
cached record matches the duplicate test yet, the first delivery inserts
exactly one record with that id and every repeated delivery afterwards is
a silent no-op, for any number of repeats. The code-plus-device-name
window check claimed for the cache exists only in the notification
component: processAlarm is a no-op whenever a kept record has the same
resolved alarm code and device name with a timestamp within 5000 ms. -/
theorem C1_dedup_amended (cache : List CacheAlarm) (e : PushAlarm) (now : Nat) (fresh : String)
    (h1 : resolvedAlarmId e ≠ "")
    (h2 : ∀ a ∈ cache, cacheMatches e (resolvedAlarmId e) a = false) :
    ((addAlarmToCache cache e now fresh).countP (fun a => a._id == resolvedAlarmId e) = 1)
    ∧ (∀ ps : List (Nat × String),
        mergeRepeat e ps (addAlarmToCache cache e now fresh)
          = addAlarmToCache cache e now fresh)
    ∧ (∀ (cur : List NotifAlarm) (e2 : NotifRaw) (n2 : Nat) (f2 : String),
        (∃ a ∈ cur, a.AlarmCode = notifCode e2 ∧ a.DeviceName = notifDevice e2
          ∧ ((a.CreatedTimestamp : Int) - (notifTs e2 n2 : Int)).natAbs < 5000) →
        processAlarm cur e2 n2 f2 = cur) := by
  have hany : cache.any (cacheMatches e (resolvedAlarmId e)) = false := by
    rw [List.any_eq_false]
    intro a ha
    simp [h2 a ha]
  have hins : addAlarmToCache cache e now fresh
      = formatPush e (resolvedAlarmId e) now fresh :: cache := by
    unfold addAlarmToCache
    simp [hany]
  have hid : (formatPush e (resolvedAlarmId e) now fresh)._id = resolvedAlarmId e := by
    unfold formatPush
    simp [h1]
  refine ⟨?_, ?_, ?_⟩
  · rw [hins, List.countP_cons]
    have hz : cache.countP (fun a => a._id == resolvedAlarmId e) = 0 := by
      rw [List.countP_eq_zero]
      intro a ha
      have := h2 a ha
      unfold cacheMatches at this
      simp only [Bool.or_eq_false_iff] at this
      simpa using this.1.1
    simp [hz, hid]
  · intro ps
    apply mergeRepeat_skip
    rw [hins]
    simp [List.any_cons, cacheMatches, hid]
  · intro cur e2 n2 f2 hdup
    unfold processAlarm
    have : notifDuplicate cur e2 n2 = true := by
      rw [notifDuplicate, List.any_eq_true]
      obtain ⟨a, ha, h3, h4, h5⟩ := hdup
      exact ⟨a, ha, by simp [h3, h4, h5]⟩
    simp [this]

/-- Claim C1, witness: a concrete event with id X7 merged into the empty
cache and then redelivered once more, through the theorem. -/
theorem C1_witness :
    ((addAlarmToCache [] { id := some "X7", timestamp := some 50 } 1 "w").countP
      (fun a => a._id == resolvedAlarmId { id := some "X7", timestamp := some 50 }) = 1)
    ∧ mergeRepeat { id := some "X7", timestamp := some 50 } [(2, "w2")]
        (addAlarmToCache [] { id := some "X7", timestamp := some 50 } 1 "w")
      = addAlarmToCache [] { id := some "X7", timestamp := some 50 } 1 "w" := by
  have h := C1_dedup_amended [] { id := some "X7", timestamp := some 50 } 1 "w"
    (by decide) (by intro a ha; cases ha)
  exact ⟨h.1, h.2.1 _⟩

/-- Claim C2, counterexample: the socketService persistent cache merge
only prepends. Merging an event with timestamp 10 and then an event with
timestamp 5 puts the older record in front of the newer one, so after a
sequence of mergeIncoming calls the cache is not sorted by
CreatedTimestamp descending. -/
theorem C2_counterexample :
    ((addAlarmToCache
        (addAlarmToCache [] { id := some "A", timestamp := some 10 } 100 "r1")
        { id := some "B", timestamp := some 5 } 200 "r2").map
      (fun a => a.CreatedTimestamp)) = [5, 10]
    ∧ sortedDescBoolCache
        (addAlarmToCache
          (addAlarmToCache [] { id := some "A", timestamp := some 10 } 100 "r1")
          { id := some "B", timestamp := some 5 } 200 "r2") = false := by
  decide

/-- Claim C2, amended: the AlarmsTab list is the component that re-sorts:
its bulk load sorts the fetched records and handleNewAlarm re-sorts the
whole list on every insert, so after any sequence of bulk loads and
merges starting from a sorted list the AlarmsTab list is sorted by
CreatedTimestamp descending. The socketService persistent cache does not
maintain this order (see the counterexample). -/
theorem C2_alarmsTab_sorted (selPlant selDevice : Option String) (ops : List TabOp)
    (init : List TabAlarm) (h : sortedByTsDesc init) :
    sortedByTsDesc (applyTabOps selPlant selDevice ops init) := by
  induction ops generalizing init with
  | nil => exact h
  | cons op ops ih =>
    refine ih _ ?_
    cases op with
    | bulk data => exact List.sorted_insertionSort tsGE _
    | merge e now fresh =>
      show sortedByTsDesc (handleNewAlarm selPlant selDevice init e now fresh)
      unfold handleNewAlarm
      dsimp only
      split
      · exact h
      · split
        · exact h
        · split
          · exact h
          · exact List.sorted_insertionSort tsGE _

/-- Claim C2, witness: a bulk load of two out-of-order records followed
by one merged push event, through the theorem starting from the empty
list. -/
theorem C2_witness :
    sortedByTsDesc
      (applyTabOps none none
        [TabOp.bulk [({ id := some "A", timestamp := some 5 }, 100, "r1"),
                     ({ id := some "B", timestamp := some 10 }, 101, "r2")],
         TabOp.merge { id := some "C", timestamp := some 7 } 102 "r3"] []) :=
  C2_alarmsTab_sorted none none _ [] (List.sorted_nil)

/-- Claim C3, counterexample: a telemetry event for device esp32_01 with
an explicit plant gets no global broadcast at all, only its device room
and plant room; and a telemetry event whose deviceId resolves to
ESP32_04 (uppercase) is routed through the special branch and never
reaches a device:ESP32_04 room, so the target set does not include the
device room of the resolved deviceId either. -/
theorem C3_counterexample :
    ((telemetryEmissions { deviceId := some "esp32_01", plantName := some "Plant C" } []).all
      (fun em => em.1 != Chan.global) = true)
    ∧ (telemetryEmissions { deviceId := some "esp32_01", plantName := some "Plant C" } []).length = 2
    ∧ truthyS (tDeviceId { deviceId := some "ESP32_04" }) = true
    ∧ ((telemetryEmissions { deviceId := some "ESP32_04" } []).all
        (fun em => match em.1 with
          | Chan.room (Room.device d) => d != "ESP32_04"
          | _ => true) = true) := by
  decide

/-- Claim C3, amended: the alarms handler always includes a global
broadcast, a telemetry routing pass includes a global broadcast exactly
when the event is identified as esp32_04, every telemetry pass includes
some device-room target (device:esp32_04 on the special branch, the
resolved deviceId room otherwise), the alarms handler includes the
device:<deviceId> room whenever deviceId resolves truthy, and a plant
room target is included whenever a plant resolves (always for alarms;
for telemetry whenever the plant field is truthy or a device name is
defined). -/
theorem C3_fanout_targets (am : AlarmMsg) (m : TelemetryMsg) (socks : List Nat) :
    ((Chan.global, "alarm") ∈ alarmEmissions am)
    ∧ ((∃ ev, (Chan.global, ev) ∈ telemetryEmissions m socks) ↔ isEsp32_04 m = true)
    ∧ (∃ d ev, (Chan.room (Room.device d), ev) ∈ telemetryEmissions m socks)
    ∧ (truthyS (aDeviceId am) = true →
        (Chan.room (Room.device (optStr (aDeviceId am))), "alarm") ∈ alarmEmissions am)
    ∧ ((truthyS m.plantName = true ∨ (tDeviceName m).isSome = true) →
        ∃ p, (Chan.room (Room.plant p), "telemetry") ∈ telemetryEmissions m socks)
    ∧ (∃ p, (Chan.room (Room.plant p), "alarm") ∈ alarmEmissions am) := by
  have hplant : (truthyS m.plantName = true ∨ (tDeviceName m).isSome = true) →
      ∃ pn, plantNameOf m = some pn := by
    intro hres
    by_cases hp : truthyS m.plantName = true
    · rcases hm : m.plantName with _ | s
      · rw [hm] at hp
        simp [truthyS] at hp
      · rw [hm] at hp
        exact ⟨s, by simp [plantNameOf, hm, hp]⟩
    · rcases hres with hres | hres
      · exact absurd hres hp
      · rcases hn : tDeviceName m with _ | n
        · rw [hn] at hres
          simp at hres
        · exact ⟨if containsSub n "esp32_04" then "Plant D" else "Plant C",
            by simp [plantNameOf, hp, hn]⟩
  refine ⟨by simp [alarmEmissions], ?_, ?_, ?_, ?_, ?_⟩
  · constructor
    · rintro ⟨ev, hmem⟩
      by_cases hE : isEsp32_04 m = true
      · exact hE
      · exfalso
        unfold telemetryEmissions at hmem
        rcases hpn : plantNameOf m with _ | pn <;>
          simp [hpn, hE, Bool.not_eq_true] at hmem
    · intro hE
      refine ⟨"telemetry", ?_⟩
      unfold telemetryEmissions
      rcases hpn : plantNameOf m with _ | pn <;> simp [hpn, hE]
  · by_cases hE : isEsp32_04 m = true
    · refine ⟨"esp32_04", "telemetry-esp32_04", ?_⟩
      unfold telemetryEmissions
      rcases hpn : plantNameOf m with _ | pn <;> simp [hpn, hE]
    · refine ⟨optStr (tDeviceId m), "telemetry", ?_⟩
      unfold telemetryEmissions
      rcases hpn : plantNameOf m with _ | pn <;>
        simp [hpn, hE, Bool.not_eq_true]
  · intro hdev
    unfold alarmEmissions
    simp [hdev]
  · intro hres
    obtain ⟨pn, hpn⟩ := hplant hres
    refine ⟨plantIdOfName pn, ?_⟩
    unfold telemetryEmissions
    simp [hpn]
  · exact ⟨aPlantId am, by simp [alarmEmissions]⟩

/-- Claim C3, witness: an alarm for device esp32_07 reaches its device
room, and a telemetry event with an explicit Plant D reaches a plant
room, both obtained through the theorem. -/
theorem C3_witness :
    ((Chan.room (Room.device (optStr (aDeviceId { deviceId := some "esp32_07" }))), "alarm")
      ∈ alarmEmissions { deviceId := some "esp32_07" })
    ∧ (∃ p, (Chan.room (Room.plant p), "telemetry")
        ∈ telemetryEmissions { plantName := some "Plant D", deviceId := some "esp32_07" } [0, 1]) := by
  have h := C3_fanout_targets { deviceId := some "esp32_07" }
    { plantName := some "Plant D", deviceId := some "esp32_07" } [0, 1]
  exact ⟨h.2.2.2.1 (by decide), h.2.2.2.2.1 (Or.inl (by decide))⟩

/-- Claim C4: a single routing pass never pushes the event twice into
the same delivery channel. Channels are identified the way the claim
enumerates them: the global broadcast, a named room (device:<id> or
plant:<id>), a legacy alias event name, or a direct per-socket send, so
an emission is the pair of channel and event name. For any telemetry
message (with distinct connected sockets) and any alarm message the
emission list of one pass has no duplicates. -/
theorem C4_router_single_push (m : TelemetryMsg) (socks : List Nat)
    (hs : socks.Nodup) (am : AlarmMsg) :
    (telemetryEmissions m socks).Nodup ∧ (alarmEmissions am).Nodup := by
  have hmap : ∀ ev : String, (socks.map (fun s => ((Chan.sock s, ev) : Emission))).Nodup := by
    intro ev
    refine List.Nodup.map ?_ hs
    intro a b h
    simpa using h
  constructor
  · unfold telemetryEmissions
    by_cases hE : isEsp32_04 m = true <;>
      rcases hpn : plantNameOf m with _ | pn <;>
        simp [hE, hpn, List.nodup_append, List.nodup_cons, List.disjoint_left,
          List.mem_append, List.mem_map, hmap]
  · unfold alarmEmissions
    by_cases hd : truthyS (aDeviceId am) = true <;>
      by_cases hn : (truthyS am.plantName || truthyS am.PlantName
          || (aDeviceId am).isSome) = true <;>
        simp [hd, hn, List.nodup_append, List.nodup_cons, List.disjoint_left,
          List.mem_append]

/-- Claim C4, witness: the esp32_04 telemetry special branch with three
connected sockets and an alarm with device and plant, through the
theorem. -/
theorem C4_witness :
    (telemetryEmissions { deviceId := some "esp32_04" } [0, 1, 2]).Nodup
    ∧ (alarmEmissions { deviceId := some "dev7", plantName := some "Plant D" }).Nodup :=
  C4_router_single_push { deviceId := some "esp32_04" } [0, 1, 2] (by decide)
    { deviceId := some "dev7", plantName := some "Plant D" }

/-- Helper: repeated onAlarm registration keeps the socket flag. -/
lemma onAlarmN_socket (st : ListenerState) (cb : Nat) :
    ∀ n, (onAlarmN cb n st).socketExists = st.socketExists := by
  intro n
  induction n with
  | zero => rfl
  | succ n ih =>
    show ((onAlarm (onAlarmN cb n st) cb).1).socketExists = st.socketExists
    unfold onAlarm
    by_cases h : (onAlarmN cb n st).socketExists = true <;> simp [h, ih] <;> rw [← ih] <;> simp [h]

/-- Helper: after at least one onAlarm registration with a socket, there
is exactly one alarm socket handler and the listeners list is the last
callback alone. -/
lemma onAlarmN_succ_state (st : ListenerState) (cb n : Nat) (h : st.socketExists = true) :
    (onAlarmN cb (n + 1) st).alarmSockHandlers = 1
    ∧ (onAlarmN cb (n + 1) st).alarmCbs = [cb] := by
  have hsock : (onAlarmN cb n st).socketExists = true := by
    rw [onAlarmN_socket st cb n, h]
  show ((onAlarm (onAlarmN cb n st) cb).1).alarmSockHandlers = 1
    ∧ ((onAlarm (onAlarmN cb n st) cb).1).alarmCbs = [cb]
  simp [onAlarm, hsock]

/-- Helper: repeated onAlarmNotification registration keeps the socket
flag. -/
lemma onAlarmNotifN_socket (st : ListenerState) (cb : Nat) :
    ∀ n, (onAlarmNotifN cb n st).socketExists = st.socketExists := by
  intro n
  induction n with
  | zero => rfl
  | succ n ih =>
    show ((onAlarmNotification (onAlarmNotifN cb n st) cb).1).socketExists = st.socketExists
    unfold onAlarmNotification
    by_cases h : (onAlarmNotifN cb n st).socketExists = true <;> simp [h, ih] <;>
      rw [← ih] <;> simp [h]

/-- Helper: state after at least one onAlarmNotification registration. -/
lemma onAlarmNotifN_succ_state (st : ListenerState) (cb n : Nat) (h : st.socketExists = true) :
    (onAlarmNotifN cb (n + 1) st).alarmNotifSockHandlers = 1
    ∧ (onAlarmNotifN cb (n + 1) st).alarmNotifCbs = [cb] := by
  have hsock : (onAlarmNotifN cb n st).socketExists = true := by
    rw [onAlarmNotifN_socket st cb n, h]
  show ((onAlarmNotification (onAlarmNotifN cb n st) cb).1).alarmNotifSockHandlers = 1
    ∧ ((onAlarmNotification (onAlarmNotifN cb n st) cb).1).alarmNotifCbs = [cb]
  simp [onAlarmNotification, hsock]

/-- Helper: repeated onTelemetry registration keeps the socket flag. -/
lemma onTelemetryN_socket (st : ListenerState) (cb : Nat) (dev : Option String) :
    ∀ n, (onTelemetryN cb dev n st).socketExists = st.socketExists := by
  intro n
  induction n with
  | zero => rfl
  | succ n ih =>
    show ((onTelemetry (onTelemetryN cb dev n st) cb dev).1).socketExists = st.socketExists
    unfold onTelemetry
    by_cases h : (onTelemetryN cb dev n st).socketExists = true <;> simp [h, ih] <;>
      rw [← ih] <;> simp [h]

/-- Helper: after at least one onTelemetry registration with a socket the
single socket handler captures the last callback and filter. -/
lemma onTelemetryN_succ_state (st : ListenerState) (cb n : Nat) (dev : Option String)
    (h : st.socketExists = true) :
    (onTelemetryN cb dev (n + 1) st).telemetrySockHandlers = [(cb, dev)] := by
  have hsock : (onTelemetryN cb dev n st).socketExists = true := by
    rw [onTelemetryN_socket st cb dev n, h]
  show ((onTelemetry (onTelemetryN cb dev n st) cb dev).1).telemetrySockHandlers = [(cb, dev)]
  simp [onTelemetry, hsock]

/-- Helper: onNotification keeps the socket flag. -/
lemma onNotificationN_socket (st : ListenerState) (cb : Nat) :
    ∀ n, (onNotificationN cb n st).socketExists = st.socketExists := by
  intro n
  induction n with
  | zero => rfl
  | succ n ih =>
    show ((onNotification (onNotificationN cb n st) cb).1).socketExists = st.socketExists
    simpa [onNotification] using ih

/-- Helper: onNotification accumulates the callback once per call. -/
lemma onNotificationN_cbs (st : ListenerState) (cb : Nat) :
    ∀ n, (onNotificationN cb n st).notifCbs = st.notifCbs ++ List.replicate n cb := by
  intro n
  induction n with
  | zero => simp [onNotificationN]
  | succ n ih =>
    show ((onNotification (onNotificationN cb n st) cb).1).notifCbs
      = st.notifCbs ++ List.replicate (n + 1) cb
    simp [onNotification, ih, List.replicate_succ']

/-- Helper: the notification socket handler is installed after at least
one registration with a socket. -/
lemma onNotificationN_installed (st : ListenerState) (cb n : Nat) (h : st.socketExists = true) :
    (onNotificationN cb (n + 1) st).notifSockHandlerInstalled = true := by
  have hsock : (onNotificationN cb n st).socketExists = true := by
    rw [onNotificationN_socket st cb n, h]
  show ((onNotification (onNotificationN cb n st) cb).1).notifSockHandlerInstalled = true
  simp [onNotification, hsock]

/-- Claim C5, counterexample: registering the same notification callback
twice through onNotification and delivering one notification event
invokes the callback twice, not once; the notification path accumulates
callbacks instead of tearing prior ones down. -/
theorem C5_counterexample :
    deliverNotification (onNotificationN 7 2 { socketExists := true }) 7 = 2 := by
  decide

/-- Claim C5, amended: registration is idempotent for the telemetry,
alarm and alarm_notification kinds: with a live socket, registering the
same callback any number of times at least once and delivering one
inbound event of that kind invokes the callback exactly once, because
prior socket handlers for the kind are torn down before the new one is
installed. For the notification kind the single socket handler is
installed once but the callback list accumulates, so one inbound event
is delivered once per registration. -/
theorem C5_idempotent_registration (st : ListenerState) (cb n : Nat) (d : TelemetryPayload)
    (hsock : st.socketExists = true) (hn : 1 ≤ n) (hcb : st.notifCbs.count cb = 0) :
    deliverAlarm (onAlarmN cb n st) cb = 1
    ∧ deliverAlarmNotif (onAlarmNotifN cb n st) cb = 1
    ∧ deliverTelemetry (onTelemetryN cb none n st) d cb = 1
    ∧ deliverNotification (onNotificationN cb n st) cb = n := by
  obtain ⟨k, rfl⟩ : ∃ k, n = k + 1 := ⟨n - 1, by omega⟩
  obtain ⟨ha1, ha2⟩ := onAlarmN_succ_state st cb k hsock
  obtain ⟨hb1, hb2⟩ := onAlarmNotifN_succ_state st cb k hsock
  have ht := onTelemetryN_succ_state st cb k none hsock
  have hn1 := onNotificationN_cbs st cb (k + 1)
  have hn2 := onNotificationN_installed st cb k hsock
  refine ⟨?_, ?_, ?_, ?_⟩
  · simp [deliverAlarm, ha1, ha2]
  · simp [deliverAlarmNotif, hb1, hb2]
  · simp [deliverTelemetry, ht, telemetryFilterMatch]
  · simp [deliverNotification, hn1, hn2, List.count_append, hcb]

/-- Claim C5, witness: three registrations of callback 5 on a fresh
connected state for every kind, through the theorem. -/
theorem C5_witness :
    deliverAlarm (onAlarmN 5 3 { socketExists := true }) 5 = 1
    ∧ deliverAlarmNotif (onAlarmNotifN 5 3 { socketExists := true }) 5 = 1
    ∧ deliverTelemetry (onTelemetryN 5 none 3 { socketExists := true })
        { device := some "esp32_04" } 5 = 1
    ∧ deliverNotification (onNotificationN 5 3 { socketExists := true }) 5 = 3 :=
  C5_idempotent_registration { socketExists := true } 5 3 { device := some "esp32_04" }
    rfl (by decide) (by decide)

/-- Helper: removing the first occurrence of one callback keeps the
count of every other callback. -/
lemma removeFirst_count_ne (x c : Nat) (h : c ≠ x) :
    ∀ l : List Nat, (removeFirst l x).count c = l.count c := by
  intro l
  induction l with
  | nil => rfl
  | cons a l ih =>
    unfold removeFirst
    by_cases hax : a = x
    · subst hax
      have hac : (a == c) = false := by
        simp [Ne.symm h]
      simp [hac, List.count_cons]
    · have : (a == x) = false := by simp [hax]
      simp [this, List.count_cons, ih]

/-- Claim C6, counterexample: after callback 0 registers for telemetry
and receives its disposer, callback 1 registers for the same kind and is
the active handler (one delivery per event). Invoking the disposer of
callback 0 then removes the socket-level telemetry handler, and callback
1 no longer receives any events, so the disposer disturbed another
registered callback of the same kind. -/
theorem C6_counterexample :
    ((onTelemetry { socketExists := true } 0 none).2 = some (Disposer.telemetry 0))
    ∧ deliverTelemetry ((onTelemetry ((onTelemetry { socketExists := true } 0 none).1) 1 none).1)
        {} 1 = 1
    ∧ deliverTelemetry
        (dispose ((onTelemetry ((onTelemetry { socketExists := true } 0 none).1) 1 none).1)
          (Disposer.telemetry 0))
        {} 1 = 0 := by
  decide

/-- Claim C6, amended: with a live socket, onTelemetry, onAlarm and
onAlarmNotification return disposers but onNotification returns none.
The alarm and alarm_notification disposers remove exactly the first
occurrence of their own callback and leave delivery to every other
callback unchanged; the telemetry disposer additionally removes the
socket-level telemetry handler, after which no telemetry callback at all
receives events until a new registration. -/
theorem C6_disposer_contract (st : ListenerState) (cb : Nat) (dev : Option String) :
    (st.socketExists = true →
      (onTelemetry st cb dev).2.isSome = true
      ∧ (onAlarm st cb).2.isSome = true
      ∧ (onAlarmNotification st cb).2.isSome = true)
    ∧ (onNotification st cb).2 = none
    ∧ ((dispose st (Disposer.alarm cb)).alarmCbs = removeFirst st.alarmCbs cb)
    ∧ (∀ c, c ≠ cb → deliverAlarm (dispose st (Disposer.alarm cb)) c = deliverAlarm st c)
    ∧ (∀ c, c ≠ cb →
        deliverAlarmNotif (dispose st (Disposer.alarmNotif cb)) c = deliverAlarmNotif st c)
    ∧ ((dispose st (Disposer.telemetry cb)).telemetrySockHandlers = [])
    ∧ (∀ (d : TelemetryPayload) (c : Nat),
        deliverTelemetry (dispose st (Disposer.telemetry cb)) d c = 0) := by
  refine ⟨?_, rfl, rfl, ?_, ?_, rfl, ?_⟩
  · intro h
    exact ⟨by simp [onTelemetry, h], by simp [onAlarm, h], by simp [onAlarmNotification, h]⟩
  · intro c hc
    simp [deliverAlarm, dispose, removeFirst_count_ne cb c hc]
  · intro c hc
    simp [deliverAlarmNotif, dispose, removeFirst_count_ne cb c hc]
  · intro d c
    simp [deliverTelemetry, dispose]

/-- Claim C6, witness: the returned telemetry disposer on a fresh state,
and the alarm disposer of callback 0 leaving delivery to callback 1
unchanged on a concrete two-callback state, through the theorem. -/
theorem C6_witness :
    ((onTelemetry { socketExists := true } 0 none).2.isSome = true)
    ∧ deliverAlarm
        (dispose { socketExists := true, alarmSockHandlers := 1, alarmCbs := [0, 1] }
          (Disposer.alarm 0)) 1
      = deliverAlarm { socketExists := true, alarmSockHandlers := 1, alarmCbs := [0, 1] } 1 := by
  refine ⟨((C6_disposer_contract { socketExists := true } 0 none).1 rfl).1, ?_⟩
  exact (C6_disposer_contract
    { socketExists := true, alarmSockHandlers := 1, alarmCbs := [0, 1] } 0 none).2.2.2.1
    1 (by decide)

/-- Claim C7, counterexample: with the push channel disconnected,
requesting device dev1 queues it, but a following request for device
dev2 deletes the dev1 entry from the pending set, so the connect replay
emits only the dev2 subscription: a subscription requested during the
disconnection is silently lost. -/
theorem C7_counterexample :
    ((subscribeToDevice ({} : SubMgrState) "dev1").1.pending = ["dev1"])
    ∧ ((subscribeToDevice ((subscribeToDevice ({} : SubMgrState) "dev1").1) "dev2").1.pending
        = ["dev2"])
    ∧ (connectReplay
        ((subscribeToDevice ((subscribeToDevice ({} : SubMgrState) "dev1").1) "dev2").1.pending)
        = [SubEmit.device "dev2"]) := by
  decide

/-- Claim C7, amended: a device or plant subscription requested while
disconnected is added to the pending set at request time, and on connect
the replay walks the whole set as it stands, emitting one subscription
per entry: a plant subscribe with the plant- prefix stripped for plant
entries and a device subscribe for every other entry. Entries can be
retired before the reconnect, though: a later device (or plant) request
deletes queued entries for other devices (or plants), so only the
entries still present at connect time are replayed. -/
theorem C7_pending_queue_replay (st : SubMgrState) (d p : String) (pending : List String) :
    (d ≠ "" → d ∈ (subscribeToDevice st d).1.pending)
    ∧ (("plant-" ++ p) ∈ (subscribeToPlant st (some p)).1.pending)
    ∧ ((connectReplay pending).length = pending.length)
    ∧ (∀ sub ∈ pending, replayOne sub ∈ connectReplay pending)
    ∧ (replayOne ("plant-" ++ p) = SubEmit.plant p)
    ∧ (isPrefixL "plant-".data d.data = false → replayOne d = SubEmit.device d) := by
  refine ⟨?_, ?_, List.length_map _ _, ?_, ?_, ?_⟩
  · intro hd
    unfold subscribeToDevice
    rw [if_neg (by simp [hd])]
    by_cases h2 : st.pending.contains d
    · rw [if_pos h2]
      simpa using h2
    · rw [if_neg h2]
      dsimp only
      by_cases h3 : (st.socketExists && st.connected) = true <;>
        simp [h3, List.mem_append]
  · unfold subscribeToPlant
    dsimp only
    by_cases h2 : st.pending.contains ("plant-" ++ p)
    · rw [if_pos h2]
      simpa using h2
    · rw [if_neg h2]
      by_cases h3 : (st.socketExists && st.connected) = true <;>
        simp [h3, List.mem_append]
  · intro sub hsub
    exact List.mem_map_of_mem replayOne hsub
  · rcases p with ⟨l⟩
    rfl
  · intro h
    simp [replayOne, h]

/-- Claim C7, witness: device dev9 queued on a fresh disconnected state
and a non-plant entry decoded as a device subscription, through the
theorem. -/
theorem C7_witness :
    ("esp32_04" ∈ (subscribeToDevice ({} : SubMgrState) "esp32_04").1.pending)
    ∧ replayOne "esp32_04" = SubEmit.device "esp32_04" := by
  have h := C7_pending_queue_replay ({} : SubMgrState) "esp32_04" "3" ["plant-2", "esp32_04"]
  exact ⟨h.1 (by decide), h.2.2.2.2.2 (by decide)⟩

/-- Helper: a well formed two-alias group resolves to the same value on
both sides through the || chain, whatever the default. -/
lemma groupOk2_resolve {a b a2 b2 : Option String} (d : String)
    (h : groupOk2 a b a2 b2 = true) :
    (firstTruthy [a, b]).getD d = (firstTruthy [a2, b2]).getD d := by
  cases a <;> cases b <;> cases a2 <;> cases b2 <;>
    simp_all [groupOk2, oneOf2, firstTruthy, truthyS]

/-- Helper: the same with a shared third operand in the || chain. -/
lemma groupOk2_resolve_tail {a b a2 b2 : Option String} (c : Option String) (d : String)
    (h : groupOk2 a b a2 b2 = true) :
    (firstTruthy [a, b, c]).getD d = (firstTruthy [a2, b2, c]).getD d := by
  cases a <;> cases b <;> cases a2 <;> cases b2 <;>
    simp_all [groupOk2, oneOf2, firstTruthy, truthyS]

/-- Helper: a well formed three-alias group resolves identically. -/
lemma groupOk3_resolve {a b c a2 b2 c2 : Option String} (d : String)
    (h : groupOk3 a b c a2 b2 c2 = true) :
    (firstTruthy [a, b, c]).getD d = (firstTruthy [a2, b2, c2]).getD d := by
  cases a <;> cases b <;> cases c <;> cases a2 <;> cases b2 <;> cases c2 <;>
    simp_all [groupOk3, oneOf3, firstTruthy, truthyS]

/-- Helper: a well formed boolean group resolves identically through the
typeof chain. -/
lemma groupOk2B_resolve {a b a2 b2 : Option Bool} (d : Bool)
    (h : groupOk2B a b a2 b2 = true) :
    definedOr a b d = definedOr a2 b2 d := by
  cases a <;> cases b <;> cases a2 <;> cases b2 <;>
    simp_all [groupOk2B, oneOf2B, definedOr]

/-- Claim C8: the normalizer is casing/alias invariant. For any two raw
alarm records that differ only in which alias of each canonical field
carries the value, normalizeAlarmObject produces identical canonical
records, for any context device id and any shared Date/random
parameters. -/
theorem C8_normalize_alias_invariant (x y : RawNormAlarm) (h : aliasVariant x y = true)
    (ctx : Option String) (now fresh : String) :
    normalizeAlarmObject x ctx now fresh = normalizeAlarmObject y ctx now fresh := by
  simp only [aliasVariant, Bool.and_eq_true] at h
  obtain ⟨⟨⟨⟨⟨⟨⟨⟨⟨h0, h1⟩, h2⟩, h3⟩, h4⟩, h5⟩, h6⟩, h7⟩, h8⟩, h9⟩ := h
  have e0 : x._id = y._id := by simpa using h0
  unfold normalizeAlarmObject
  simp only [NormAlarm.mk.injEq]
  exact ⟨by rw [e0], groupOk2_resolve _ h1, groupOk2_resolve _ h2,
    groupOk3_resolve _ h3, groupOk3_resolve _ h4,
    groupOk2_resolve_tail ctx _ h5, groupOk2_resolve _ h6, groupOk2_resolve _ h7,
    groupOk2B_resolve _ h8, groupOk2B_resolve _ h9⟩

/-- Claim C8, witness: an uppercase-styled and a lowercase-styled record
with the same values normalize to the same canonical record, through the
theorem. -/
theorem C8_witness :
    aliasVariant
        { DeviceId := some "esp32_04", AlarmCode := some "IO_ALR_108",
          CreatedTimestamp := some "2025-05-09T10:00:00Z", IsRead := some false }
        { deviceId := some "esp32_04", alarmCode := some "IO_ALR_108",
          createdTimestamp := some "2025-05-09T10:00:00Z", isRead := some false } = true
    ∧ normalizeAlarmObject
        { DeviceId := some "esp32_04", AlarmCode := some "IO_ALR_108",
          CreatedTimestamp := some "2025-05-09T10:00:00Z", IsRead := some false }
        none "t0" "r0"
      = normalizeAlarmObject
        { deviceId := some "esp32_04", alarmCode := some "IO_ALR_108",
          createdTimestamp := some "2025-05-09T10:00:00Z", isRead := some false }
        none "t0" "r0" :=
  ⟨by decide,
    C8_normalize_alias_invariant
      { DeviceId := some "esp32_04", AlarmCode := some "IO_ALR_108",
        CreatedTimestamp := some "2025-05-09T10:00:00Z", IsRead := some false }
      { deviceId := some "esp32_04", alarmCode := some "IO_ALR_108",
        createdTimestamp := some "2025-05-09T10:00:00Z", isRead := some false }
      (by decide) none "t0" "r0"⟩

end GasMonitor
